import Mathlib

/-!
Verification development for the testbook-automation repository.

The repository contains two scraper variants
(`src/workflows/scrapper/scraper.js` and a second variant of the same file),
an HTML sanitizer (`src/workflows/scrapper/utils/sanitizer.js`), a batch
driver (`src/workflows/scrapper/batch_scraper.js`) and a task-list validator
(`scripts/validateLinks.js`).  This file gives a shallow embedding of the
pure extraction cores, the sanitizer pipeline, the harvesting loop, the
`main` control flow (try/catch/finally with `process.exit` semantics) and
the validator, and proves or refutes the frozen claims about them.

Conventions of the embedding:
* JavaScript strings are Lean `String`s; `trim`, `toLowerCase` and
  `includes` are modelled by explicit executable functions below
  (`jsTrim`, `jsToLower`, `strIncludes`) so that all proofs can be checked
  by kernel evaluation.
* `null`/`undefined` values are `Option.none`; JS falsiness of strings is
  the explicit test against `""`.
* The external `html-minifier-terser` library is a parameter
  `m : String → Option String` of the sanitizer; `none` models a minifier
  run that throws.  `idMinifier` models a successful run that leaves an
  already-minimal fragment unchanged.
* Recursive tree and character-list scans are written with an explicit
  `Nat` fuel so every definition is structurally recursive and reduces in
  the kernel.
-/

/-- JS whitespace characters relevant to the fragments handled here
(space, tab, line feed, carriage return, vertical tab, form feed). -/
def isJsWs (c : Char) : Bool :=
  c = ' ' || c = '\t' || c = '\n' || c = '\r' || c = Char.ofNat 11 || c = Char.ofNat 12

/-- Model of `String.prototype.trim`. -/
def jsTrim (s : String) : String :=
  ⟨((s.data.dropWhile isJsWs).reverse.dropWhile isJsWs).reverse⟩

/-- Model of `String.prototype.toLowerCase` (ASCII). -/
def jsToLower (s : String) : String :=
  ⟨s.data.map Char.toLower⟩

/-- Model of `String.prototype.includes`: substring containment. -/
def strIncludes (hay needle : String) : Bool :=
  hay.data.tails.any (fun t => needle.data.isPrefixOf t)

/-- Numeric value of a list of decimal digit characters. -/
def digitsToNat (ds : List Char) : Nat :=
  ds.foldl (fun acc c => acc * 10 + (c.toNat - '0'.toNat)) 0

/-- Model of `s.match(/\d+/)` followed by `parseInt`: the value of the first
maximal run of decimal digits in `s`, or `none` when `s` has no digit. -/
def firstDigitRun (s : String) : Option Nat :=
  match s.data.dropWhile (fun c => !c.isDigit) with
  | [] => none
  | ds => some (digitsToNat (ds.takeWhile Char.isDigit))

/-- Remove all whitespace from a string; two strings are
whitespace-insensitively equal when their `stripWhitespace` images agree. -/
def stripWhitespace (s : String) : String :=
  ⟨s.data.filter (fun c => !isJsWs c)⟩

namespace Sanitizer

/-- A node of the HTML fragment tree manipulated by the sanitizer
(cheerio's DOM view of the fragment): elements with lower-cased tag name
and attribute list, text nodes (entities kept raw, matching
`decodeEntities: false`), and comments. -/
inductive HNode where
  | elem (tag : String) (attrs : List (String × String)) (children : List HNode)
  | text (s : String)
  | comment (s : String)

/-- Tags serialized without a closing tag, as cheerio does. -/
def voidTags : List String :=
  ["area", "base", "br", "col", "embed", "hr", "img", "input",
   "link", "meta", "param", "source", "track", "wbr"]

/-- Characters allowed in a tag or attribute name. -/
def isNameChar (c : Char) : Bool :=
  c.isAlphanum || c = '-' || c = ':' || c = '_'

/-- Consume the attribute list of an open tag.  Returns the attributes, a
flag for `/>` self-closing syntax, and the input after the closing `>`. -/
def parseAttrs : Nat → List Char → List (String × String) × Bool × List Char
  | 0, cs => ([], false, cs)
  | fuel + 1, cs =>
    match cs.dropWhile isJsWs with
    | [] => ([], false, [])
    | '>' :: rest => ([], false, rest)
    | '/' :: '>' :: rest => ([], true, rest)
    | cs' =>
      let name := cs'.takeWhile isNameChar
      let afterName := cs'.dropWhile isNameChar
      if name.isEmpty then
        -- stray character inside a tag: skip it
        match afterName with
        | [] => ([], false, [])
        | _ :: r =>
          let (attrs, sc, rest) := parseAttrs fuel r
          (attrs, sc, rest)
      else
        match afterName.dropWhile isJsWs with
        | '=' :: afterEq =>
          match afterEq.dropWhile isJsWs with
          | '"' :: v =>
            let value := v.takeWhile (fun c => c ≠ '"')
            let afterV := (v.dropWhile (fun c => c ≠ '"')).drop 1
            let (attrs, sc, rest) := parseAttrs fuel afterV
            ((⟨jsToLower ⟨name⟩, ⟨value⟩⟩ : String × String) :: attrs, sc, rest)
          | '\'' :: v =>
            let value := v.takeWhile (fun c => c ≠ '\'')
            let afterV := (v.dropWhile (fun c => c ≠ '\'')).drop 1
            let (attrs, sc, rest) := parseAttrs fuel afterV
            ((⟨jsToLower ⟨name⟩, ⟨value⟩⟩ : String × String) :: attrs, sc, rest)
          | other =>
            let value := other.takeWhile (fun c => !isJsWs c && c ≠ '>')
            let afterV := other.dropWhile (fun c => !isJsWs c && c ≠ '>')
            let (attrs, sc, rest) := parseAttrs fuel afterV
            ((⟨jsToLower ⟨name⟩, ⟨value⟩⟩ : String × String) :: attrs, sc, rest)
        | afterWs =>
          let (attrs, sc, rest) := parseAttrs fuel afterWs
          ((⟨jsToLower ⟨name⟩, ""⟩ : String × String) :: attrs, sc, rest)

/-- Consume a closing tag `</name>` at the head of the input, if present. -/
def skipCloseTag (cs : List Char) : List Char :=
  match cs with
  | '<' :: '/' :: rest => (rest.dropWhile (fun c => c ≠ '>')).drop 1
  | _ => cs

/-- Split the input at the first occurrence of `pat`, returning the part
before and the part after the pattern. -/
def splitOnFirst (pat : List Char) : Nat → List Char → Option (List Char × List Char)
  | 0, _ => none
  | _ + 1, [] => if pat.isEmpty then some ([], []) else none
  | fuel + 1, c :: rest =>
    if pat.isPrefixOf (c :: rest) then
      some ([], (c :: rest).drop pat.length)
    else
      match splitOnFirst pat fuel rest with
      | some (pre, post) => some (c :: pre, post)
      | none => none

/-- Parse a sequence of sibling nodes.  Stops at end of input or at a
closing tag (left for the caller to consume). -/
def parseNodes : Nat → List Char → List HNode × List Char
  | 0, cs => ([], cs)
  | fuel + 1, [] => ([], [])
  | fuel + 1, cs@('<' :: '!' :: '-' :: '-' :: rest) =>
    match splitOnFirst ['-', '-', '>'] (rest.length + 1) rest with
    | some (body, after) =>
      let (ns, rest') := parseNodes fuel after
      (HNode.comment ⟨body⟩ :: ns, rest')
    | none => ([HNode.comment ⟨rest⟩], [])
  | fuel + 1, cs@('<' :: '/' :: _) => ([], cs)
  | fuel + 1, cs@('<' :: c :: rest) =>
    if c.isAlpha then
      let name := jsToLower ⟨(c :: rest).takeWhile isNameChar⟩
      let afterName := (c :: rest).dropWhile isNameChar
      let (attrs, selfClosing, afterTag) := parseAttrs (afterName.length + 1) afterName
      if selfClosing || voidTags.contains name then
        let (ns, rest') := parseNodes fuel afterTag
        (HNode.elem name attrs [] :: ns, rest')
      else if name = "script" then
        match splitOnFirst ['<', '/', 's', 'c', 'r', 'i', 'p', 't'] (afterTag.length + 1) afterTag with
        | some (body, after) =>
          let after' := (after.dropWhile (fun ch => ch ≠ '>')).drop 1
          let (ns, rest') := parseNodes fuel after'
          (HNode.elem name attrs [HNode.text ⟨body⟩] :: ns, rest')
        | none =>
          let (ns, rest') := parseNodes fuel []
          (HNode.elem name attrs [HNode.text ⟨afterTag⟩] :: ns, rest')
      else
        let (children, afterChildren) := parseNodes fuel afterTag
        let afterClose := skipCloseTag afterChildren
        let (ns, rest') := parseNodes fuel afterClose
        (HNode.elem name attrs children :: ns, rest')
    else
      let (ns, rest') := parseNodes fuel rest
      match ns with
      | HNode.text t :: ns' => (HNode.text ⟨'<' :: t.data⟩ :: ns', rest')
      | _ => (HNode.text "<" :: ns, rest')
  | fuel + 1, cs =>
    let t := cs.takeWhile (fun ch => ch ≠ '<')
    let rest := cs.dropWhile (fun ch => ch ≠ '<')
    let (ns, rest') := parseNodes fuel rest
    (HNode.text ⟨t⟩ :: ns, rest')

/-- Parse an HTML fragment string into a node list (fragment mode, as
`cheerio.load(html, opts, false)` does). -/
def parseFragment (s : String) : List HNode :=
  (parseNodes (2 * s.length + 2) s.data).1

/-- Serialize an attribute list the way cheerio does (`name="value"`). -/
def serializeAttrs (attrs : List (String × String)) : String :=
  attrs.foldl (fun acc p => acc ++ " " ++ p.1 ++ "=\"" ++ p.2 ++ "\"") ""

/-- Serialize a node list back to a string (`$.html()` with
`decodeEntities: false`: text is emitted raw). -/
def serializeNodes : Nat → List HNode → String
  | 0, _ => ""
  | _ + 1, [] => ""
  | fuel + 1, HNode.text s :: rest => s ++ serializeNodes fuel rest
  | fuel + 1, HNode.comment s :: rest =>
    "<!--" ++ s ++ "-->" ++ serializeNodes fuel rest
  | fuel + 1, HNode.elem tag attrs children :: rest =>
    if voidTags.contains tag then
      "<" ++ tag ++ serializeAttrs attrs ++ ">" ++ serializeNodes fuel rest
    else
      "<" ++ tag ++ serializeAttrs attrs ++ ">" ++ serializeNodes fuel children
        ++ "</" ++ tag ++ ">" ++ serializeNodes fuel rest

/-- Does the `class` attribute of `attrs` contain the word `cls`?
(cheerio class selector semantics: the attribute is split on whitespace.) -/
def hasClass (attrs : List (String × String)) (cls : String) : Bool :=
  match attrs.lookup "class" with
  | some v => (v.data.splitOnP isJsWs).any (fun w => (⟨w⟩ : String) = cls)
  | none => false

/-- `$('*').removeAttr('style')`: strip inline `style` attributes from
every element. -/
def removeStyleAttrs : Nat → List HNode → List HNode
  | 0, ns => ns
  | _ + 1, [] => []
  | fuel + 1, HNode.elem t a c :: rest =>
    HNode.elem t (a.filter (fun p => p.1 ≠ "style")) (removeStyleAttrs fuel c)
      :: removeStyleAttrs fuel rest
  | fuel + 1, n :: rest => n :: removeStyleAttrs fuel rest

/-- `$('font').each((_, el) => $(el).replaceWith($(el).html()))`.

cheerio iterates over the snapshot of `font` elements taken before any
replacement; replacing an element re-parses its inner HTML into fresh
nodes, so a `font` nested inside another `font` is detached by the outer
replacement and its own `replaceWith` has no effect on the document.  The
net effect, modelled here, is that each outermost `font` element is
replaced by its children, and the spliced children are not processed
further. -/
def unwrapFontPass : Nat → List HNode → List HNode
  | 0, ns => ns
  | _ + 1, [] => []
  | fuel + 1, HNode.elem "font" _ c :: rest => c ++ unwrapFontPass fuel rest
  | fuel + 1, HNode.elem t a c :: rest =>
    HNode.elem t a (unwrapFontPass fuel c) :: unwrapFontPass fuel rest
  | fuel + 1, n :: rest => n :: unwrapFontPass fuel rest

/-- `$('span.math-tex').each((_, el) => $(el).replaceWith($(el).html()))`;
same stale-snapshot semantics as the `font` unwrap. -/
def unwrapMathTexPass : Nat → List HNode → List HNode
  | 0, ns => ns
  | _ + 1, [] => []
  | fuel + 1, HNode.elem t a c :: rest =>
    if t = "span" && hasClass a "math-tex" then
      c ++ unwrapMathTexPass fuel rest
    else
      HNode.elem t a (unwrapMathTexPass fuel c) :: unwrapMathTexPass fuel rest
  | fuel + 1, n :: rest => n :: unwrapMathTexPass fuel rest

/-- `$('o\\:p, span.ng-binding').remove()`: junk elements are removed with
their content. -/
def removeJunkPass : Nat → List HNode → List HNode
  | 0, ns => ns
  | _ + 1, [] => []
  | fuel + 1, HNode.elem t a c :: rest =>
    if t = "o:p" || (t = "span" && hasClass a "ng-binding") then
      removeJunkPass fuel rest
    else
      HNode.elem t a (removeJunkPass fuel c) :: removeJunkPass fuel rest
  | fuel + 1, n :: rest => n :: removeJunkPass fuel rest

/-- `.text()` of a node list: concatenation of all descendant text nodes. -/
def textContent : Nat → List HNode → String
  | 0, _ => ""
  | _ + 1, [] => ""
  | fuel + 1, HNode.text s :: rest => s ++ textContent fuel rest
  | fuel + 1, HNode.elem _ _ c :: rest => textContent fuel c ++ textContent fuel rest
  | fuel + 1, HNode.comment _ :: rest => textContent fuel rest

/-- Does the node list contain an element node (`children().length > 0`)? -/
def hasElemChild (ns : List HNode) : Bool :=
  ns.any (fun n => match n with | HNode.elem _ _ _ => true | _ => false)

/-- Is `s` non-empty and made of decimal digits only (`/^\d+$/`)? -/
def isAllDigits (s : String) : Bool :=
  !s.data.isEmpty && s.data.all Char.isDigit

/-- Convert a `<span>` whose trimmed text is purely digits and which has no
element children into `<sup>` wrapping the same inner content. -/
def digitSpanToSupPass : Nat → List HNode → List HNode
  | 0, ns => ns
  | _ + 1, [] => []
  | fuel + 1, HNode.elem t a c :: rest =>
    if t = "span" && isAllDigits (jsTrim (textContent fuel c)) && !hasElemChild c then
      HNode.elem "sup" [] c :: digitSpanToSupPass fuel rest
    else
      HNode.elem t a (digitSpanToSupPass fuel c) :: digitSpanToSupPass fuel rest
  | fuel + 1, n :: rest => n :: digitSpanToSupPass fuel rest

/-- `$('script[type="math/tex"]')` → `\( latex \)` text; a script whose
content is blank is left in place. -/
def mathScriptPass : Nat → List HNode → List HNode
  | 0, ns => ns
  | _ + 1, [] => []
  | fuel + 1, HNode.elem t a c :: rest =>
    if t = "script" && a.lookup "type" = some "math/tex" then
      let latex := serializeNodes fuel c
      if jsTrim latex ≠ "" then
        HNode.text ("\\(" ++ jsTrim latex ++ "\\)") :: mathScriptPass fuel rest
      else
        HNode.elem t a c :: mathScriptPass fuel rest
    else
      HNode.elem t a (mathScriptPass fuel c) :: mathScriptPass fuel rest
  | fuel + 1, n :: rest => n :: mathScriptPass fuel rest

/-- `$('.MathJax, .MathJax_Preview, .MJX_Assistive_MathML').remove()`. -/
def removeMathJaxPass : Nat → List HNode → List HNode
  | 0, ns => ns
  | _ + 1, [] => []
  | fuel + 1, HNode.elem t a c :: rest =>
    if hasClass a "MathJax" || hasClass a "MathJax_Preview"
        || hasClass a "MJX_Assistive_MathML" then
      removeMathJaxPass fuel rest
    else
      HNode.elem t a (removeMathJaxPass fuel c) :: removeMathJaxPass fuel rest
  | fuel + 1, n :: rest => n :: removeMathJaxPass fuel rest

/-- Remove the two decorative images identified by URL substrings. -/
def removeDecorativeImgPass : Nat → List HNode → List HNode
  | 0, ns => ns
  | _ + 1, [] => []
  | fuel + 1, HNode.elem t a c :: rest =>
    if t = "img"
        && (strIncludes ((a.lookup "src").getD "") "lms_creative_elements/key-point-image.png"
            || strIncludes ((a.lookup "src").getD "") "lms_creative_elements/additional-information-image.png") then
      removeDecorativeImgPass fuel rest
    else
      HNode.elem t a (removeDecorativeImgPass fuel c) :: removeDecorativeImgPass fuel rest
  | fuel + 1, n :: rest => n :: removeDecorativeImgPass fuel rest

/-- Unwrap `<p>` into its content followed by `<br>` when the inner HTML is
non-blank, and remove it entirely otherwise.  Replacement re-parses the
inner HTML, so (as with `font`) the spliced children are not processed
further. -/
def unwrapParagraphPass : Nat → List HNode → List HNode
  | 0, ns => ns
  | _ + 1, [] => []
  | fuel + 1, HNode.elem "p" _ c :: rest =>
    if jsTrim (serializeNodes fuel c) ≠ "" then
      c ++ [HNode.elem "br" [] []] ++ unwrapParagraphPass fuel rest
    else
      unwrapParagraphPass fuel rest
  | fuel + 1, HNode.elem t a c :: rest =>
    HNode.elem t a (unwrapParagraphPass fuel c) :: unwrapParagraphPass fuel rest
  | fuel + 1, n :: rest => n :: unwrapParagraphPass fuel rest

/-- Is the node a `<br>` element? -/
def isBrElem : HNode → Bool
  | HNode.elem "br" _ _ => true
  | _ => false

/-- Is the node a `<table>` element? -/
def isTableElem : HNode → Bool
  | HNode.elem "table" _ _ => true
  | _ => false

/-- Is the node an element at all? -/
def isElemNode : HNode → Bool
  | HNode.elem _ _ _ => true
  | _ => false

/-- Remove all `<br>` descendants of a node list (used inside tables). -/
def removeAllBrs : Nat → List HNode → List HNode
  | 0, ns => ns
  | _ + 1, [] => []
  | fuel + 1, HNode.elem t a c :: rest =>
    if t = "br" then removeAllBrs fuel rest
    else HNode.elem t a (removeAllBrs fuel c) :: removeAllBrs fuel rest
  | fuel + 1, n :: rest => n :: removeAllBrs fuel rest

/-- `$('table').removeAttr('cellpadding').removeAttr('cellspacing')` and
`$('table').find('br').remove()`. -/
def tableCleanupPass : Nat → List HNode → List HNode
  | 0, ns => ns
  | _ + 1, [] => []
  | fuel + 1, HNode.elem t a c :: rest =>
    if t = "table" then
      HNode.elem t (a.filter (fun p => p.1 ≠ "cellpadding" && p.1 ≠ "cellspacing"))
          (removeAllBrs fuel (tableCleanupPass fuel c))
        :: tableCleanupPass fuel rest
    else
      HNode.elem t a (tableCleanupPass fuel c) :: tableCleanupPass fuel rest
  | fuel + 1, n :: rest => n :: tableCleanupPass fuel rest

/-- Walking outward from a `<br>`, skipping non-element siblings and other
`<br>` elements, is the first other element a `<table>`?  This is exactly
the set of `<br>` elements deleted by the `prev()`/`next()` walks of the
source (`.prev()`/`.next()` skip non-element siblings). -/
def touchesTable : List HNode → Bool
  | [] => false
  | n :: rest =>
    if isTableElem n then true
    else if isBrElem n || !isElemNode n then touchesTable rest
    else false

/-- One sibling list with `<br>` elements adjacent (through other `<br>`s
and non-element nodes) to a `<table>` removed.  `before` is the reversed
list of already-processed siblings. -/
def stripBrsNearTablesAux : List HNode → List HNode → List HNode
  | _, [] => []
  | before, n :: rest =>
    if isBrElem n && (touchesTable before || touchesTable rest) then
      stripBrsNearTablesAux before rest
    else
      n :: stripBrsNearTablesAux (n :: before) rest

/-- Remove `<br>` elements immediately preceding or following a table in
every sibling list. -/
def stripBrsNearTablesPass : Nat → List HNode → List HNode
  | 0, ns => ns
  | fuel + 1, ns =>
    (stripBrsNearTablesAux [] ns).foldr
      (fun n acc =>
        match n with
        | HNode.elem t a c => HNode.elem t a (stripBrsNearTablesPass fuel c) :: acc
        | n => n :: acc) []

/-- All DOM manipulations of the sanitizer, in source order. -/
def domPasses (fuel : Nat) (ns : List HNode) : List HNode :=
  stripBrsNearTablesPass fuel
    (tableCleanupPass fuel
      (unwrapParagraphPass fuel
        (removeDecorativeImgPass fuel
          (removeMathJaxPass fuel
            (mathScriptPass fuel
              (digitSpanToSupPass fuel
                (removeJunkPass fuel
                  (unwrapMathTexPass fuel
                    (unwrapFontPass fuel
                      (removeStyleAttrs fuel ns))))))))))

/-- `processedHtml.replace(/<!--[\s\S]*?-->/g, '')`: delete every
comment that has a closing `-->`, non-greedily. -/
def removeCommentsStr : Nat → List Char → List Char
  | 0, cs => cs
  | _ + 1, [] => []
  | fuel + 1, cs@(c :: rest) =>
    if ['<', '!', '-', '-'].isPrefixOf cs then
      match splitOnFirst ['-', '-', '>'] (cs.length + 1) (cs.drop 4) with
      | some (_, after) => removeCommentsStr fuel after
      | none => cs
    else
      c :: removeCommentsStr fuel rest

/-- `replace(/&nbsp;/g, ' ')` and, composed after it,
`replace(/­/g, '')`. -/
def replaceAllStr (pat rep : List Char) : Nat → List Char → List Char
  | 0, cs => cs
  | _ + 1, [] => []
  | fuel + 1, cs@(c :: rest) =>
    if pat.isPrefixOf cs ∧ ¬ pat.isEmpty then
      rep ++ replaceAllStr pat rep fuel (cs.drop pat.length)
    else
      c :: replaceAllStr pat rep fuel rest

/-- Consume one `<br\s*\/?>` token (case-insensitive), returning the rest. -/
def matchBrToken (cs : List Char) : Option (List Char) :=
  match cs with
  | '<' :: b :: r :: rest =>
    if (b = 'b' || b = 'B') && (r = 'r' || r = 'R') then
      match (rest.dropWhile isJsWs) with
      | '/' :: '>' :: rest' => some rest'
      | '>' :: rest' => some rest'
      | _ => none
    else none
  | _ => none

/-- Count consecutive `(<br\s*\/?>\s*)` units from the head of the input,
returning the count and the input after the last unit (whitespace after
the last token included in the match, as in the regex). -/
def countBrUnits : Nat → List Char → Nat × List Char
  | 0, cs => (0, cs)
  | fuel + 1, cs =>
    match matchBrToken cs with
    | some rest =>
      let rest' := rest.dropWhile isJsWs
      let (k, rest'') := countBrUnits fuel rest'
      (k + 1, rest'')
    | none => (0, cs)

/-- `replace(/(<br\s*\/?>\s*){3,}/gi, '<br><br>')`. -/
def collapseBrRunsStr : Nat → List Char → List Char
  | 0, cs => cs
  | _ + 1, [] => []
  | fuel + 1, cs@('<' :: rest) =>
    match countBrUnits (cs.length + 1) cs with
    | (k, after) =>
      if k ≥ 3 then
        ['<', 'b', 'r', '>', '<', 'b', 'r', '>'] ++ collapseBrRunsStr fuel after
      else
        '<' :: collapseBrRunsStr fuel rest
  | fuel + 1, c :: rest => c :: collapseBrRunsStr fuel rest

/-- Consume one `\s*<br\s*\/?>` unit of the leading-`<br>` regex. -/
def consumeWsBr (cs : List Char) : Option (List Char) :=
  matchBrToken (cs.dropWhile isJsWs)

/-- Strip the leading `(\s*<br\s*\/?>)+` run, if any. -/
def stripLeadingBrs : Nat → List Char → List Char
  | 0, cs => cs
  | fuel + 1, cs =>
    match consumeWsBr cs with
    | some rest => stripLeadingBrs fuel rest
    | none => cs

/-- Does the whole input match `(<br\s*\/?>\s*)+`? -/
def isBrRun : Nat → List Char → Bool
  | 0, _ => false
  | fuel + 1, cs =>
    match matchBrToken cs with
    | some rest =>
      let rest' := rest.dropWhile isJsWs
      rest'.isEmpty || isBrRun fuel rest'
    | none => false

/-- Strip the trailing `(<br\s*\/?>\s*)+$` run, if any: cut at the earliest
position from which the rest of the string is entirely made of such
units. -/
def stripTrailingBrs : Nat → List Char → List Char
  | 0, cs => cs
  | _ + 1, [] => []
  | fuel + 1, cs@(c :: rest) =>
    if isBrRun (cs.length + 1) cs then []
    else c :: stripTrailingBrs fuel rest

/-- The post-serialization string passes (steps applied to
`processedHtml`), in source order. -/
def stringPasses (s : String) : String :=
  let s1 := removeCommentsStr (s.data.length + 1) s.data
  let s2 := replaceAllStr ['&', 'n', 'b', 's', 'p', ';'] [' '] (s1.length + 1) s1
  let s3 := replaceAllStr [Char.ofNat 173] [] (s2.length + 1) s2
  let s4 := collapseBrRunsStr (s3.length + 1) s3
  let s5 := stripLeadingBrs (s4.length + 1) s4
  let s6 := stripTrailingBrs (s5.length + 1) s5
  ⟨s6⟩

/-- The pre-minification result of the sanitizer on a non-empty string
input: DOM passes, serialization, then the string passes. -/
def preMinified (s : String) : String :=
  stringPasses (serializeNodes (2 * s.length + 2) (domPasses (2 * s.length + 2) (parseFragment s)))

/-- `minifyHtml` from `sanitizer.js`: empty input is returned as is; a
minifier failure (modelled by the parameter returning `none`) falls back
to the original snippet. -/
def minifyHtml (m : String → Option String) (s : String) : String :=
  if s = "" then s else (m s).getD s

/-- `transformAndSanitizeHtml` from `sanitizer.js`.  The input is
`Option String` (`none` models `null`/`undefined`); `m` is the external
`html-minifier-terser` minifier, `none` modelling a throw. -/
def transformAndSanitizeHtml (m : String → Option String) (input : Option String) : String :=
  match input with
  | none => ""
  | some s =>
    if s = "" then ""
    else jsTrim (minifyHtml m (preMinified s))

end Sanitizer

/-- A minifier run that succeeds and leaves the (already minimal)
fragments produced by the string passes unchanged; used to evaluate the
pipeline on concrete inputs. -/
def idMinifier : String → Option String := fun s => some s

/-- One option container of the active question, as seen through the
parser selectors: the raw inner HTML of its option-text region (`none`
when the region is absent, since `.html()` is `null` then) and whether the
container carries the designated correct-marker class. -/
structure SnapOption where
  textHtml : Option String
  correct : Bool
deriving Repr, DecidableEq

/-- The data the extraction step reads from one page snapshot through its
CSS selectors.  `containerPresent` is whether the active-question
container matches; the remaining fields are the query results scoped to
that container.  Option containers are listed in document order and are
assumed to be consecutive siblings (so that cheerio's `.index()` on the
first correct-marked container is its position in this list). -/
structure Snapshot where
  containerPresent : Bool
  questionNumberText : String
  sectionNameText : String
  comprehension : Option String
  questionBody : Option String
  solution : Option String
  options : List SnapOption
deriving Repr, DecidableEq

/-- One harvested question, with the exact field set produced by the
scraper. -/
structure QuestionRecord where
  noteId : Nat
  SL : Nat
  Question : String
  OP1 : Option String
  OP2 : Option String
  OP3 : Option String
  OP4 : Option String
  Answer : Nat
  Solution : String
  Tags : List String
deriving Repr, DecidableEq

/-- `sanitizedOptions[i] || null`: an out-of-range access is `undefined`
and an empty sanitized string is falsy, both becoming `null`. -/
def jsOrNull (x : Option String) : Option String :=
  match x with
  | some "" => none
  | some s => some s
  | none => none

namespace Scraper

/-- The keyword fallback rules of `getTagForQuestion` (step 2 of the
source), applied to the trimmed section name: first matching
case-insensitive substring rule wins. -/
def keywordTag (trimmedSection : String) : Option String :=
  let lowerCaseSection := jsToLower trimmedSection
  if strIncludes lowerCaseSection "quantitative" || strIncludes lowerCaseSection "quants" then some "MATH"
  else if strIncludes lowerCaseSection "intelligence" || strIncludes lowerCaseSection "reasoning" then some "GI"
  else if strIncludes lowerCaseSection "english" then some "ENG"
  else if strIncludes lowerCaseSection "awareness" || strIncludes lowerCaseSection "knowledge" then some "GK"
  else if strIncludes lowerCaseSection "computer" then some "COMPUTER"
  else if strIncludes lowerCaseSection "bengali" then some "BENGALI"
  else none

/-- `getTagForQuestion` from `scraper.js`.  `none` in either argument
models a missing (`null`/`undefined`) or non-number input; an empty
section name is falsy and also yields `null`. -/
def getTagForQuestion (sectionName : Option String) (questionNumber : Option Int) : Option String :=
  match sectionName, questionNumber with
  | some s, some n =>
    if s = "" then none
    else
      let trimmedSection := jsTrim s
      if trimmedSection = "Section I" ∧ 1 ≤ n ∧ n ≤ 30 then some "MATH"
      else if trimmedSection = "Section I" ∧ 31 ≤ n ∧ n ≤ 60 then some "GI"
      else if trimmedSection = "Section II" ∧ 1 ≤ n ∧ n ≤ 45 then some "ENG"
      else if trimmedSection = "Section II" ∧ 46 ≤ n ∧ n ≤ 70 then some "GK"
      else keywordTag trimmedSection
  | _, _ => none

/-- `$options.filter('.correctOptionClass').index()`: the sibling position
of the first correct-marked option container, or `-1` when none matches.
With the option containers being consecutive siblings, this is the index
within the options list. -/
def correctIndex (options : List SnapOption) : Int :=
  match options.findIdx? (fun o => o.correct) with
  | some i => Int.ofNat i
  | none => (-1 : Int)

/-- `scrapeSingleQuestionPage` from `scraper.js`, over a snapshot already
resolved through the parser selectors.  `m` is the minifier parameter
threaded to the sanitizer.  The source's surrounding try/catch maps every
failure to `null`; the model is total. -/
def scrapeSingleQuestionPage (m : String → Option String) (snap : Snapshot)
    (fallbackCounter noteId serialNumber : Nat) : Option QuestionRecord :=
  if !snap.containerPresent then none
  else
    let slText := jsTrim snap.questionNumberText
    let questionNumberForTagging := (firstDigitRun slText).getD fallbackCounter
    let sectionName := jsTrim snap.sectionNameText
    let tag := getTagForQuestion (some sectionName) (some (Int.ofNat questionNumberForTagging))
    let sanitizedComprehension := Sanitizer.transformAndSanitizeHtml m (snap.comprehension.map jsTrim)
    let sanitizedQuestionBody := Sanitizer.transformAndSanitizeHtml m (snap.questionBody.map jsTrim)
    let sanitizedSolution := Sanitizer.transformAndSanitizeHtml m (snap.solution.map jsTrim)
    let sanitizedOptions := snap.options.map (fun o => Sanitizer.transformAndSanitizeHtml m (o.textHtml.map jsTrim))
    let finalQuestionHtml :=
      if sanitizedComprehension ≠ "" then
        sanitizedComprehension ++ "<br><br><strong><u>Question</u></strong><br>" ++ sanitizedQuestionBody
      else sanitizedQuestionBody
    let correctAnswerIndex : Int := correctIndex snap.options
    let answer : Nat :=
      if correctAnswerIndex = (-1 : Int) then 0 else (correctAnswerIndex + 1).toNat
    if finalQuestionHtml = "" ∨ sanitizedOptions.length = 0 then none
    else
      some {
        noteId := noteId
        SL := serialNumber
        Question := finalQuestionHtml
        OP1 := jsOrNull (sanitizedOptions.get? 0)
        OP2 := jsOrNull (sanitizedOptions.get? 1)
        OP3 := jsOrNull (sanitizedOptions.get? 2)
        OP4 := jsOrNull (sanitizedOptions.get? 3)
        Answer := answer
        Solution := sanitizedSolution
        Tags := match tag with | some t => [t] | none => []
      }

/-- The page-dependent inputs of one iteration of the harvesting loop: the
snapshot taken after clicking "view solution", whether the "next" control
is present when queried after the extraction, and whether the
"reached the last question" message is on the page after clicking
"next". -/
structure PageStep where
  snap : Snapshot
  nextButtonPresent : Bool
  endMessagePresent : Bool
deriving Repr, DecidableEq

/-- The mutable state of the harvesting loop of `main`, plus two
instrumentation counters (`pagesExamined`, `nextClicks`) recording how
many pages were snapshotted/extracted and how often "next" was clicked. -/
structure LoopState where
  questionCounter : Nat
  noteIdCounter : Nat
  serialNumberCounter : Nat
  allQuestionsData : List QuestionRecord
  pagesExamined : Nat
  nextClicks : Nat
deriving Repr, DecidableEq

/-- The loop state just before the harvesting loop starts
(`questionCounter = questionsToSkip + 1`, `noteIdCounter = 1000 +
questionsToSkip`, `serialNumberCounter = 1`). -/
def initLoopState (questionsToSkip : Nat) : LoopState :=
  { questionCounter := questionsToSkip + 1
    noteIdCounter := 1000 + questionsToSkip
    serialNumberCounter := 1
    allQuestionsData := []
    pagesExamined := 0
    nextClicks := 0 }

/-- `allQuestionsData.length >= scrapeLimit`; a `none` limit models the
default `Infinity`. -/
def limitReached (scrapeLimit : Option Nat) (len : Nat) : Bool :=
  match scrapeLimit with
  | some n => decide (len ≥ n)
  | none => false

/-- `if (commonTag) { currentQuestionData.Tags.push(commonTag); }` — an
empty tag string is falsy and not pushed. -/
def appendCommonTag (commonTag : Option String) (r : QuestionRecord) : QuestionRecord :=
  match commonTag with
  | some t => if t = "" then r else { r with Tags := r.Tags ++ [t] }
  | none => r

/-- The extraction part of one iteration of the harvesting loop: snapshot
the page (counted by `pagesExamined`), extract, and on success push the
record (with the common tag appended) and advance the serial counter; a
`null` extraction only logs a warning. -/
def processPage (m : String → Option String) (commonTag : Option String)
    (p : PageStep) (st : LoopState) : LoopState :=
  match scrapeSingleQuestionPage m p.snap st.questionCounter st.noteIdCounter
      st.serialNumberCounter with
  | some qData =>
    { st with
      pagesExamined := st.pagesExamined + 1
      allQuestionsData := st.allQuestionsData ++ [appendCommonTag commonTag qData]
      serialNumberCounter := st.serialNumberCounter + 1 }
  | none => { st with pagesExamined := st.pagesExamined + 1 }

/-- Clicking "next": `questionCounter++; noteIdCounter++` (plus the
instrumentation counter). -/
def clickNextAdvance (st : LoopState) : LoopState :=
  { st with
    nextClicks := st.nextClicks + 1
    questionCounter := st.questionCounter + 1
    noteIdCounter := st.noteIdCounter + 1 }

/-- The harvesting loop of `main` (`while (true) { ... }`), driven by the
list of page iterations the session will see.  Termination checks are
evaluated in the source order: scrape-limit first, then "next"-absent,
then (after clicking "next" and advancing the page/note counters) the
end-of-quiz message.  An exhausted page list ends the model's recursion. -/
def scrapeLoop (m : String → Option String) (scrapeLimit : Option Nat)
    (commonTag : Option String) : List PageStep → LoopState → LoopState
  | [], st => st
  | p :: rest, st =>
    let st2 := processPage m commonTag p st
    if limitReached scrapeLimit st2.allQuestionsData.length then st2
    else if !p.nextButtonPresent then st2
    else if p.endMessagePresent then clickNextAdvance st2
    else scrapeLoop m scrapeLimit commonTag rest (clickNextAdvance st2)

/-- Outcome of a JS statement in the `main` control-flow model: normal
completion, a thrown exception, or `process.exit(code)` (which terminates
the Node process immediately, without unwinding `finally` blocks). -/
inductive JsOutcome where
  | ok
  | thrown (err : String)
  | exited (code : Nat)
deriving Repr, DecidableEq

/-- Which resources `main` has acquired and which it has released. -/
structure CleanupState where
  tabCreated : Bool
  browserCreated : Bool
  loggerCreated : Bool
  tabClosed : Bool
  browserClosed : Bool
  loggerClosed : Bool
deriving Repr, DecidableEq

/-- No resources acquired or released yet. -/
def initCleanup : CleanupState :=
  { tabCreated := false, browserCreated := false, loggerCreated := false
    tabClosed := false, browserClosed := false, loggerClosed := false }

/-- A statement of `main`: a state transformer with a JS outcome. -/
def JsProg := CleanupState → JsOutcome × CleanupState

/-- A statement that does nothing of interest to the model. -/
def jsSkip : JsProg := fun st => (JsOutcome.ok, st)

/-- `throw err`. -/
def jsThrow (e : String) : JsProg := fun st => (JsOutcome.thrown e, st)

/-- `process.exit(code)`. -/
def processExit (c : Nat) : JsProg := fun st => (JsOutcome.exited c, st)

/-- Statement sequencing: later statements run only after a normal
completion. -/
def jsSeq (a b : JsProg) : JsProg := fun st =>
  match a st with
  | (JsOutcome.ok, st') => b st'
  | r => r

/-- Run a `finally` block after an outcome `r` of the guarded region; the
`finally` block's own abrupt completion would take precedence (the blocks
used here always complete normally). -/
def runFinallyAfter (fin : JsProg) (r : JsOutcome) : JsProg := fun st =>
  match fin st with
  | (JsOutcome.ok, st') => (r, st')
  | other => other

/-- `try { body } catch (e) { handler } finally { fin }` with JS
semantics: the `finally` block runs after normal completion of the body or
of the handler, and after an exception escaping the handler — but a
`process.exit` inside the body or the handler terminates the process at
once and the `finally` block never runs. -/
def tryCatchFinally (body : JsProg) (handler : String → JsProg) (fin : JsProg) : JsProg :=
  fun st =>
    match body st with
    | (JsOutcome.exited c, st') => (JsOutcome.exited c, st')
    | (JsOutcome.ok, st') => runFinallyAfter fin JsOutcome.ok st'
    | (JsOutcome.thrown e, st') =>
      match handler e st' with
      | (JsOutcome.exited c, st'') => (JsOutcome.exited c, st'')
      | (JsOutcome.ok, st'') => runFinallyAfter fin JsOutcome.ok st''
      | (JsOutcome.thrown e', st'') => runFinallyAfter fin (JsOutcome.thrown e') st''

/-- `try { body } catch (e) { handler }` without a `finally` block. -/
def tryCatch (body : JsProg) (handler : String → JsProg) : JsProg :=
  tryCatchFinally body handler jsSkip

/-- `browserClient = await CDP(); ... tabClient = await CDP({target})`. -/
def connectClients : JsProg := fun st =>
  (JsOutcome.ok, { st with browserCreated := true, tabCreated := true })

/-- `logger = createLogger(logFilePath)`. -/
def openLogger : JsProg := fun st =>
  (JsOutcome.ok, { st with loggerCreated := true })

/-- `if (tabClient) await tabClient.close();`. -/
def closeTab : JsProg := fun st =>
  (JsOutcome.ok, if st.tabCreated then { st with tabClosed := true } else st)

/-- `if (browserClient) await browserClient.close();`. -/
def closeBrowser : JsProg := fun st =>
  (JsOutcome.ok, if st.browserCreated then { st with browserClosed := true } else st)

/-- `if (logger) logger.close();`. -/
def closeLogger : JsProg := fun st =>
  (JsOutcome.ok, if st.loggerCreated then { st with loggerClosed := true } else st)

/-- Which of `main`'s fallible phases succeed in a given run. -/
structure MainEnv where
  linkProvided : Bool
  connectOk : Bool
  navigationOk : Bool
  selectorsOk : Bool
  restOk : Bool
deriving Repr, DecidableEq

/-- Control-flow skeleton of `main` from `scraper.js`: the missing-link
exit, the try block (connect, navigation retries, the inner
required-selector try/catch that exits on `TimeoutError`, logger creation
and everything after it), the catch block that logs and calls
`process.exit(1)`, and the finally block that closes tab, browser and
logger. -/
def mainModel (env : MainEnv) : JsProg :=
  if !env.linkProvided then processExit 1
  else
    tryCatchFinally
      (jsSeq (if env.connectOk then connectClients else jsThrow "connect")
        (jsSeq (if env.navigationOk then jsSkip else jsThrow "navigation")
          (jsSeq
            (tryCatch (if env.selectorsOk then jsSkip else jsThrow "TimeoutError")
              (fun e => if e = "TimeoutError" then processExit 1 else jsThrow e))
            (jsSeq openLogger (if env.restOk then jsSkip else jsThrow "late")))))
      (fun _ => processExit 1)
      (jsSeq closeTab (jsSeq closeBrowser closeLogger))

/-- Run `main` from a fresh state. -/
def runMain (env : MainEnv) : JsOutcome × CleanupState :=
  mainModel env initCleanup

/-- Every acquired resource was released. -/
def allReleased (st : CleanupState) : Bool :=
  (!st.tabCreated || st.tabClosed)
    && (!st.browserCreated || st.browserClosed)
    && (!st.loggerCreated || st.loggerClosed)

end Scraper

namespace ScraperV2

/-- The keyword fallback rules of `getTagForQuestion` from the second
scraper variant (`src/unnamed/part_000`). -/
def keywordTag (s : String) : Option String :=
  let lc := jsToLower s
  if strIncludes lc "quantitative" || strIncludes lc "quants" then some "MATH"
  else if strIncludes lc "intelligence" || strIncludes lc "reasoning" then some "GI"
  else if strIncludes lc "english" then some "ENG"
  else if strIncludes lc "awareness" || strIncludes lc "knowledge" then some "GK"
  else if strIncludes lc "computer" then some "COMPUTER"
  else if strIncludes lc "bengali" then some "BENGALI"
  else none

/-- `getTagForQuestion` from the second scraper variant. -/
def getTagForQuestion (sectionName : Option String) (questionNumber : Option Int) : Option String :=
  match sectionName, questionNumber with
  | some sn, some n =>
    if sn = "" then none
    else
      let s := jsTrim sn
      if s = "Section I" ∧ 1 ≤ n ∧ n ≤ 30 then some "MATH"
      else if s = "Section I" ∧ 31 ≤ n ∧ n ≤ 60 then some "GI"
      else if s = "Section II" ∧ 1 ≤ n ∧ n ≤ 45 then some "ENG"
      else if s = "Section II" ∧ 46 ≤ n ∧ n ≤ 70 then some "GK"
      else keywordTag s
  | _, _ => none

/-- `scrapeSingleQuestionPage` from the second scraper variant.  The only
textual difference from the first variant's extraction core is that the
correct-option query repeats `$container.find(s.optionContainer)` instead
of reusing the earlier `$options` variable — the same collection either
way. -/
def scrapeSingleQuestionPage (m : String → Option String) (snap : Snapshot)
    (fallbackCounter noteId serialNumber : Nat) : Option QuestionRecord :=
  if !snap.containerPresent then none
  else
    let slText := jsTrim snap.questionNumberText
    let qNum := (firstDigitRun slText).getD fallbackCounter
    let sectionName := jsTrim snap.sectionNameText
    let tag := getTagForQuestion (some sectionName) (some (Int.ofNat qNum))
    let sanitizedComprehension := Sanitizer.transformAndSanitizeHtml m (snap.comprehension.map jsTrim)
    let sanitizedQuestionBody := Sanitizer.transformAndSanitizeHtml m (snap.questionBody.map jsTrim)
    let sanitizedSolution := Sanitizer.transformAndSanitizeHtml m (snap.solution.map jsTrim)
    let sanitizedOptions := snap.options.map (fun o => Sanitizer.transformAndSanitizeHtml m (o.textHtml.map jsTrim))
    let finalQuestionHtml :=
      if sanitizedComprehension ≠ "" then
        sanitizedComprehension ++ "<br><br><strong><u>Question</u></strong><br>" ++ sanitizedQuestionBody
      else sanitizedQuestionBody
    let correctAnswerIndex : Int := Scraper.correctIndex snap.options
    let answer : Nat :=
      if correctAnswerIndex = (-1 : Int) then 0 else (correctAnswerIndex + 1).toNat
    if finalQuestionHtml = "" ∨ sanitizedOptions.length = 0 then none
    else
      some {
        noteId := noteId
        SL := serialNumber
        Question := finalQuestionHtml
        OP1 := jsOrNull (sanitizedOptions.get? 0)
        OP2 := jsOrNull (sanitizedOptions.get? 1)
        OP3 := jsOrNull (sanitizedOptions.get? 2)
        OP4 := jsOrNull (sanitizedOptions.get? 3)
        Answer := answer
        Solution := sanitizedSolution
        Tags := match tag with | some t => [t] | none => []
      }

end ScraperV2

namespace ValidateLinks

/-- One entry of `links.json` as the validator sees it. -/
structure LinkEntry where
  Status : String
  File : String
deriving Repr, DecidableEq

/-- All paths are taken relative to the project root (the validator's
`rootDir`); the constant absolute prefix is dropped from the model. -/
def scrapedDir : String := "output/scraped"

/-- Second known output location. -/
def taggedDir : String := "output/tagged"

/-- `path.join`. -/
def pathJoin (a b : String) : String := a ++ "/" ++ b

/-- `fileExists` from `scripts/validateLinks.js`: the recorded file name
is joined onto each of the two output directories and checked against the
set `fs` of existing paths. -/
def fileExists (fs : List String) (fileName : String) : Bool :=
  fs.contains (pathJoin scrapedDir fileName) || fs.contains (pathJoin taggedDir fileName)

/-- Per-entry body of `validateLinks`: a COMPLETED entry with a non-empty
file reference is demoted to PENDING (file reference cleared) when
`fileExists` fails. -/
def validateEntry (fs : List String) (e : LinkEntry) : LinkEntry :=
  if e.Status = "COMPLETED" ∧ e.File ≠ "" then
    if fileExists fs e.File then e
    else { Status := "PENDING", File := "" }
  else e

/-- `validateLinks` over the whole task list. -/
def validateLinks (fs : List String) (links : List LinkEntry) : List LinkEntry :=
  links.map (validateEntry fs)

/-- The file reference the batch driver (`batch_scraper.js`) records on a
completed task: `path.relative(PROJECT_ROOT, path.join(OUTPUT_DIR, name))`
with `OUTPUT_DIR = <root>/output/scraped`, i.e. the relative path
`output/scraped/<name>`. -/
def batchRecordedFile (name : String) : String := pathJoin "output/scraped" name

end ValidateLinks
/-! ## Helper lemmas -/

/-- `natSeq start n = [start, start + 1, …, start + n - 1]`. -/
def natSeq (start : Nat) : Nat → List Nat
  | 0 => []
  | n + 1 => start :: natSeq (start + 1) n

theorem natSeq_snoc (start n : Nat) :
    natSeq start (n + 1) = natSeq start n ++ [start + n] := by
  induction n generalizing start with
  | zero => simp [natSeq]
  | succ k ih =>
    rw [natSeq, ih (start + 1), natSeq]
    simp [Nat.add_assoc, Nat.add_comm 1 k]

theorem findIdx?_lt_length {α : Type} (p : α → Bool) :
    ∀ (l : List α) (j : Nat), List.findIdx? p l = some j → j < l.length := by
  intro l
  induction l with
  | nil => intro j h; simp [List.findIdx?] at h
  | cons a t ih =>
    intro j h
    rw [List.findIdx?_cons] at h
    by_cases hp : p a = true
    · rw [if_pos hp] at h
      injection h with h
      simp only [List.length_cons]
      omega
    · rw [if_neg hp, List.findIdx?_succ] at h
      simp only [Option.map_eq_some'] at h
      obtain ⟨a', ha', hj⟩ := h
      have := ih a' ha'
      simp only [List.length_cons]
      omega

namespace Scraper

theorem appendCommonTag_SL (tag : Option String) (r : QuestionRecord) :
    (appendCommonTag tag r).SL = r.SL := by
  unfold appendCommonTag
  cases tag with
  | none => rfl
  | some t => by_cases h : t = "" <;> simp [h]

theorem appendCommonTag_noteId (tag : Option String) (r : QuestionRecord) :
    (appendCommonTag tag r).noteId = r.noteId := by
  unfold appendCommonTag
  cases tag with
  | none => rfl
  | some t => by_cases h : t = "" <;> simp [h]

/-- Core facts about a successful extraction: the record carries the
passed-in serial number and note id, its question HTML is non-empty, the
snapshot had at least one option container, and the `Answer` field encodes
the position of the first correct-marked option container. -/
theorem scrape_core {m : String → Option String} {snap : Snapshot}
    {f nid sl : Nat} {r : QuestionRecord}
    (h : scrapeSingleQuestionPage m snap f nid sl = some r) :
    r.SL = sl ∧ r.noteId = nid ∧ r.Question ≠ "" ∧ snap.options ≠ [] ∧
    r.Answer = (match snap.options.findIdx? (fun o => o.correct) with
      | some i => i + 1
      | none => 0) := by
  unfold scrapeSingleQuestionPage at h
  split at h
  · exact absurd h (by simp)
  · simp only [] at h
    split at h
    all_goals
      split at h
      · exact absurd h (by simp)
      · next hrej =>
        push_neg at hrej
        injection h with h
        subst h
        refine ⟨rfl, rfl, hrej.1, ?_, ?_⟩
        · intro he
          rw [he] at hrej
          simp at hrej
        · show (if correctIndex snap.options = (-1 : Int) then 0
              else (correctIndex snap.options + 1).toNat) = _
          unfold correctIndex
          cases hidx : snap.options.findIdx? (fun o => o.correct) with
          | none => simp
          | some i => simp

/-- A snapshot with no option containers is always rejected. -/
theorem scrape_no_options {m : String → Option String} {snap : Snapshot}
    (f nid sl : Nat) (h : snap.options = []) :
    scrapeSingleQuestionPage m snap f nid sl = none := by
  unfold scrapeSingleQuestionPage
  split
  · rfl
  · simp only []
    rw [if_pos]
    right
    simp [h]

theorem processPage_spec (m : String → Option String) (tag : Option String)
    (p : PageStep) (st : LoopState) :
    ((processPage m tag p st).allQuestionsData = st.allQuestionsData
      ∧ (processPage m tag p st).serialNumberCounter = st.serialNumberCounter)
    ∨ (∃ q, (processPage m tag p st).allQuestionsData = st.allQuestionsData ++ [q]
        ∧ q.SL = st.serialNumberCounter
        ∧ q.noteId = st.noteIdCounter
        ∧ (processPage m tag p st).serialNumberCounter = st.serialNumberCounter + 1) := by
  unfold processPage
  cases hq : scrapeSingleQuestionPage m p.snap st.questionCounter st.noteIdCounter
      st.serialNumberCounter with
  | none => exact Or.inl ⟨rfl, rfl⟩
  | some q =>
    refine Or.inr ⟨appendCommonTag tag q, rfl, ?_, ?_, rfl⟩
    · rw [appendCommonTag_SL]
      exact (scrape_core hq).1
    · rw [appendCommonTag_noteId]
      exact (scrape_core hq).2.1

theorem clickNextAdvance_records (st : LoopState) :
    (clickNextAdvance st).allQuestionsData = st.allQuestionsData := rfl

theorem clickNextAdvance_serial (st : LoopState) :
    (clickNextAdvance st).serialNumberCounter = st.serialNumberCounter := rfl

/-- The loop only appends to the result collection. -/
theorem scrapeLoop_records_mono (m : String → Option String)
    (lim : Option Nat) (tag : Option String) :
    ∀ (pages : List PageStep) (st : LoopState),
      ∃ suf, (scrapeLoop m lim tag pages st).allQuestionsData = st.allQuestionsData ++ suf := by
  intro pages
  induction pages with
  | nil => intro st; exact ⟨[], by simp [scrapeLoop]⟩
  | cons p rest ih =>
    intro st
    rw [scrapeLoop]
    have hpp := processPage_spec m tag p st
    split
    · rcases hpp with ⟨h1, _⟩ | ⟨q, h1, _⟩
      · exact ⟨[], by simp [h1]⟩
      · exact ⟨[q], by simp [h1]⟩
    · split
      · rcases hpp with ⟨h1, _⟩ | ⟨q, h1, _⟩
        · exact ⟨[], by simp [h1]⟩
        · exact ⟨[q], by simp [h1]⟩
      · split
        · rcases hpp with ⟨h1, _⟩ | ⟨q, h1, _⟩
          · exact ⟨[], by simp [clickNextAdvance_records, h1]⟩
          · exact ⟨[q], by simp [clickNextAdvance_records, h1]⟩
        · rcases ih (clickNextAdvance (processPage m tag p st)) with ⟨suf2, h2⟩
          rw [h2, clickNextAdvance_records]
          rcases hpp with ⟨h1, _⟩ | ⟨q, h1, _⟩
          · exact ⟨suf2, by simp [h1]⟩
          · exact ⟨[q] ++ suf2, by simp [h1]⟩

/-- SL-sequence invariant: if the collected records so far are numbered
`1, …, len` and the serial counter is `len + 1`, the loop preserves
this. -/
theorem scrapeLoop_SL (m : String → Option String) (lim : Option Nat) (tag : Option String) :
    ∀ (pages : List PageStep) (st : LoopState),
      st.allQuestionsData.map QuestionRecord.SL = natSeq 1 st.allQuestionsData.length →
      st.serialNumberCounter = st.allQuestionsData.length + 1 →
      (scrapeLoop m lim tag pages st).allQuestionsData.map QuestionRecord.SL
        = natSeq 1 (scrapeLoop m lim tag pages st).allQuestionsData.length := by
  intro pages
  induction pages with
  | nil => intro st h1 _; simpa [scrapeLoop] using h1
  | cons p rest ih =>
    intro st h1 h2
    have hpp := processPage_spec m tag p st
    have hinv : (processPage m tag p st).allQuestionsData.map QuestionRecord.SL
          = natSeq 1 (processPage m tag p st).allQuestionsData.length
        ∧ (processPage m tag p st).serialNumberCounter
          = (processPage m tag p st).allQuestionsData.length + 1 := by
      rcases hpp with ⟨ha, hs⟩ | ⟨q, ha, hSL, _, hs⟩
      · rw [ha, hs]
        exact ⟨h1, h2⟩
      · rw [ha, hs, h2]
        constructor
        · rw [List.map_append, h1, List.length_append]
          simp only [List.map_cons, List.map_nil, List.length_cons, List.length_nil]
          rw [hSL, h2, natSeq_snoc]
          simp [Nat.add_comm]
        · simp
    rw [scrapeLoop]
    split
    · exact hinv.1
    · split
      · exact hinv.1
      · split
        · simpa [clickNextAdvance_records] using hinv.1
        · exact ih (clickNextAdvance (processPage m tag p st))
            (by simpa [clickNextAdvance_records] using hinv.1)
            (by simpa [clickNextAdvance_records, clickNextAdvance_serial] using hinv.2)

/-- With a positive limit `N`, the loop never collects more than `N`
records. -/
theorem scrapeLoop_le_limit (m : String → Option String) (tag : Option String) (N : Nat) :
    ∀ (pages : List PageStep) (st : LoopState),
      st.allQuestionsData.length < N →
      (scrapeLoop m (some N) tag pages st).allQuestionsData.length ≤ N := by
  intro pages
  induction pages with
  | nil => intro st h; rw [scrapeLoop]; omega
  | cons p rest ih =>
    intro st h
    have hpp := processPage_spec m tag p st
    have hlen : (processPage m tag p st).allQuestionsData.length
        ≤ st.allQuestionsData.length + 1 := by
      rcases hpp with ⟨ha, _⟩ | ⟨q, ha, _⟩ <;> simp [ha]
    rw [scrapeLoop]
    split
    · omega
    · next hlim =>
      have hlt : (processPage m tag p st).allQuestionsData.length < N := by
        simp only [limitReached, decide_eq_true_eq] at hlim
        omega
      split
      · omega
      · split
        · rw [clickNextAdvance_records]; omega
        · exact ih (clickNextAdvance (processPage m tag p st))
            (by rw [clickNextAdvance_records]; omega)

end Scraper
namespace Scraper

/-- If the first page of the session extracts successfully, the first
collected record is that page's record (with the common tag appended). -/
theorem scrapeLoop_first_record (m : String → Option String) (lim : Option Nat)
    (tag : Option String) (p : PageStep) (rest : List PageStep) (st : LoopState)
    (r : QuestionRecord) (hempty : st.allQuestionsData = [])
    (hq : scrapeSingleQuestionPage m p.snap st.questionCounter st.noteIdCounter
      st.serialNumberCounter = some r) :
    (scrapeLoop m lim tag (p :: rest) st).allQuestionsData.head?
      = some (appendCommonTag tag r) := by
  have hproc : (processPage m tag p st).allQuestionsData = [appendCommonTag tag r] := by
    unfold processPage
    rw [hq, hempty]
    rfl
  rw [scrapeLoop]
  split
  · rw [hproc]; rfl
  · split
    · rw [hproc]; rfl
    · split
      · rw [clickNextAdvance_records, hproc]; rfl
      · rcases scrapeLoop_records_mono m lim tag rest
          (clickNextAdvance (processPage m tag p st)) with ⟨suf, hs⟩
        rw [hs, clickNextAdvance_records, hproc]
        rfl

end Scraper

/-! ## Concrete inputs used by witnesses and counterexamples -/

/-- A well-formed snapshot with four options, the third marked correct. -/
def snapFourOptions : Snapshot :=
  { containerPresent := true
    questionNumberText := "Q. 12 "
    sectionNameText := " English Language "
    comprehension := none
    questionBody := some "<b>What?</b>"
    solution := some "<p>Because.</p>"
    options := [⟨some "alpha", false⟩, ⟨some "beta", false⟩,
                ⟨some "gamma", true⟩, ⟨some "delta", false⟩] }

/-- The record `snapFourOptions` extracts at note id 1005, serial 2. -/
def recFourOptions : QuestionRecord :=
  { noteId := 1005, SL := 2, Question := "<b>What?</b>",
    OP1 := some "alpha", OP2 := some "beta", OP3 := some "gamma", OP4 := some "delta",
    Answer := 3, Solution := "Because.", Tags := ["ENG"] }

/-- The record `snapFourOptions` extracts at note id 1002, serial 1. -/
def recSkipTwo : QuestionRecord :=
  { recFourOptions with noteId := 1002, SL := 1 }

/-- The record `snapFourOptions` extracts at note id 1000, serial 1. -/
def recLimitOne : QuestionRecord :=
  { recFourOptions with noteId := 1000, SL := 1 }

/-- A snapshot whose single option container sanitizes to the empty
string. -/
def snapAllEmptyOptions : Snapshot :=
  { containerPresent := true
    questionNumberText := "1"
    sectionNameText := ""
    comprehension := none
    questionBody := some "<b>What?</b>"
    solution := none
    options := [⟨some "", false⟩] }

/-- A snapshot with five option containers, the fifth marked correct. -/
def snapFiveOptions : Snapshot :=
  { snapFourOptions with
    options := [⟨some "a", false⟩, ⟨some "b", false⟩, ⟨some "c", false⟩,
                ⟨some "d", false⟩, ⟨some "e", true⟩] }

/-- A page whose extraction succeeds, with "next" present and no
end-of-quiz message. -/
def pageGood : Scraper.PageStep :=
  { snap := snapFourOptions, nextButtonPresent := true, endMessagePresent := false }

/-- The `main` environment in which one of the two required selectors
never appears (the 10-second wait throws `TimeoutError`). -/
def envSelectorTimeout : Scraper.MainEnv :=
  { linkProvided := true, connectOk := true, navigationOk := true
    selectorsOk := false, restOk := true }

/-- A minifier run that always throws. -/
def failMinifier : String → Option String := fun _ => none
/-! ## Claim theorems -/

/-- C1, counterexample.  The claim asserts that an emitted record has at
least one non-null option field and that a snapshot whose options all
sanitize to empty is rejected.  Here a snapshot with one option container
whose text sanitizes to `""` still yields a record — with all four option
fields null — because the code only rejects when *no* option container was
found (`sanitizedOptions.length === 0`), not when all sanitize to empty. -/
theorem C1_counterexample :
    Scraper.scrapeSingleQuestionPage idMinifier snapAllEmptyOptions 1 1000 1 =
      some { noteId := 1000, SL := 1, Question := "<b>What?</b>",
             OP1 := none, OP2 := none, OP3 := none, OP4 := none,
             Answer := 0, Solution := "", Tags := [] } := by
  decide

/-- C1, amended.  If extraction returns a record, its question HTML is
non-empty and the snapshot had at least one option container (but all four
`OP` fields may still be null); a snapshot with no option containers is
rejected with null. -/
theorem C1_emitted_record_amended :
    ∀ (m : String → Option String) (snap : Snapshot) (f nid sl : Nat),
      (∀ r, Scraper.scrapeSingleQuestionPage m snap f nid sl = some r →
        r.Question ≠ "" ∧ snap.options ≠ [])
      ∧ (snap.options = [] → Scraper.scrapeSingleQuestionPage m snap f nid sl = none) := by
  intro m snap f nid sl
  exact ⟨fun r h => ⟨(Scraper.scrape_core h).2.2.1, (Scraper.scrape_core h).2.2.2.1⟩,
    fun h => Scraper.scrape_no_options f nid sl h⟩

/-- C1, witness for the amended theorem at concrete inputs. -/
theorem C1_emitted_record_amended_witness :
    (Scraper.scrapeSingleQuestionPage idMinifier snapFourOptions 3 1005 2 = some recFourOptions
      ∧ recFourOptions.Question ≠ "" ∧ snapFourOptions.options ≠ [])
    ∧ (({ snapFourOptions with options := [] } : Snapshot).options = []
      ∧ Scraper.scrapeSingleQuestionPage idMinifier { snapFourOptions with options := [] } 1 1000 1 = none) :=
  ⟨⟨by decide,
    (C1_emitted_record_amended idMinifier snapFourOptions 3 1005 2).1 recFourOptions (by decide)⟩,
   ⟨rfl, (C1_emitted_record_amended idMinifier { snapFourOptions with options := [] } 1 1000 1).2 rfl⟩⟩

/-- C2, counterexample.  On the required-selector-timeout path the code
calls `process.exit(1)` from inside the try block; `process.exit`
terminates the Node process without running `finally` blocks, so the tab
and browser connections, although acquired, are never closed. -/
theorem C2_counterexample :
    (Scraper.runMain envSelectorTimeout).1 = Scraper.JsOutcome.exited 1
    ∧ (Scraper.runMain envSelectorTimeout).2.tabCreated = true
    ∧ (Scraper.runMain envSelectorTimeout).2.browserCreated = true
    ∧ (Scraper.runMain envSelectorTimeout).2.tabClosed = false
    ∧ (Scraper.runMain envSelectorTimeout).2.browserClosed = false
    ∧ (Scraper.runMain envSelectorTimeout).2.loggerClosed = false := by
  decide

/-- C2, amended.  The `finally` cleanup (closing tab, browser and log
sink) runs exactly on the normal-completion path; every fatal path
(missing link, connect/navigation failure, selector timeout, late error)
reaches `process.exit(1)` inside the try or catch block, which skips the
`finally` block, so nothing is closed there. -/
theorem C2_cleanup_amended :
    ∀ a b c d e : Bool,
      (((Scraper.runMain ⟨a, b, c, d, e⟩).2.tabClosed
        && (Scraper.runMain ⟨a, b, c, d, e⟩).2.browserClosed
        && (Scraper.runMain ⟨a, b, c, d, e⟩).2.loggerClosed)
          = (a && b && c && d && e))
      ∧ ((Scraper.runMain ⟨a, b, c, d, e⟩).1 = Scraper.JsOutcome.ok
          ↔ (a && b && c && d && e) = true) := by
  intro a b c d e
  cases a <;> cases b <;> cases c <;> cases d <;> cases e <;>
    exact ⟨rfl, by decide⟩

/-- C9.  The batch driver records `File` as the root-relative path
`output/scraped/<name>`, but `fileExists` joins that whole path onto each
output directory again, so the existence check looks at
`output/scraped/output/scraped/<name>` (and the tagged twin) and fails
even though the recorded file exists; the COMPLETED task is demoted to
PENDING. -/
theorem C9_validator_demotes_existing_file :
    ([ValidateLinks.batchRecordedFile "Exam.json"].contains
        (ValidateLinks.batchRecordedFile "Exam.json") = true)
    ∧ (ValidateLinks.fileExists [ValidateLinks.batchRecordedFile "Exam.json"]
        (ValidateLinks.batchRecordedFile "Exam.json") = false)
    ∧ (ValidateLinks.validateLinks [ValidateLinks.batchRecordedFile "Exam.json"]
        [{ Status := "COMPLETED", File := ValidateLinks.batchRecordedFile "Exam.json" }]
      = [{ Status := "PENDING", File := "" }]) := by
  refine ⟨by decide, by decide, by decide⟩

/-- C10.  The two scraper variants have extensionally equal pure
extraction cores: the tag resolvers agree on every input, and the
single-question extractors agree on every snapshot and counter values. -/
theorem C10_variant_equivalence :
    (∀ (s : Option String) (n : Option Int),
      Scraper.getTagForQuestion s n = ScraperV2.getTagForQuestion s n)
    ∧ (∀ (m : String → Option String) (snap : Snapshot) (f nid sl : Nat),
      Scraper.scrapeSingleQuestionPage m snap f nid sl
        = ScraperV2.scrapeSingleQuestionPage m snap f nid sl) :=
  ⟨fun s n => rfl, fun m snap f nid sl => rfl⟩
/-- C3.  The tag resolver returns `null` on missing, non-number or empty
inputs (and, being a total function, never raises); on a trimmed section
equal to the reserved labels it applies the documented ranges; otherwise
it falls through to occur the keyword rules in their fixed priority order
(`keywordTag`), so "Quantitative Reasoning" resolves to MATH, not GI. -/
theorem C3_tag_resolver :
    (∀ n : Int, Scraper.getTagForQuestion none (some n) = none)
    ∧ (∀ s : String, Scraper.getTagForQuestion (some s) none = none)
    ∧ (∀ n : Int, Scraper.getTagForQuestion (some "") (some n) = none)
    ∧ (∀ (s : String) (n : Int), jsTrim s = "Section I" → 1 ≤ n → n ≤ 30 →
        Scraper.getTagForQuestion (some s) (some n) = some "MATH")
    ∧ (∀ (s : String) (n : Int), jsTrim s = "Section I" → 31 ≤ n → n ≤ 60 →
        Scraper.getTagForQuestion (some s) (some n) = some "GI")
    ∧ (∀ (s : String) (n : Int), jsTrim s = "Section II" → 1 ≤ n → n ≤ 45 →
        Scraper.getTagForQuestion (some s) (some n) = some "ENG")
    ∧ (∀ (s : String) (n : Int), jsTrim s = "Section II" → 46 ≤ n → n ≤ 70 →
        Scraper.getTagForQuestion (some s) (some n) = some "GK")
    ∧ (∀ (s : String) (n : Int), s ≠ "" →
        ¬(jsTrim s = "Section I" ∧ 1 ≤ n ∧ n ≤ 30) →
        ¬(jsTrim s = "Section I" ∧ 31 ≤ n ∧ n ≤ 60) →
        ¬(jsTrim s = "Section II" ∧ 1 ≤ n ∧ n ≤ 45) →
        ¬(jsTrim s = "Section II" ∧ 46 ≤ n ∧ n ≤ 70) →
        Scraper.getTagForQuestion (some s) (some n) = Scraper.keywordTag (jsTrim s))
    ∧ Scraper.getTagForQuestion (some "Quantitative Reasoning") (some 50) = some "MATH" := by
  refine ⟨fun n => rfl, fun s => rfl, fun n => rfl, ?_, ?_, ?_, ?_, ?_, by decide⟩
  · intro s n h1 h2 h3
    have hs : s ≠ "" := by
      intro he
      subst he
      exact absurd h1 (by decide)
    simp only [Scraper.getTagForQuestion]
    rw [if_neg hs, if_pos ⟨h1, h2, h3⟩]
  · intro s n h1 h2 h3
    have hs : s ≠ "" := by
      intro he
      subst he
      exact absurd h1 (by decide)
    simp only [Scraper.getTagForQuestion]
    rw [if_neg hs, if_neg (by rintro ⟨-, -, h30⟩; omega), if_pos ⟨h1, h2, h3⟩]
  · intro s n h1 h2 h3
    have hs : s ≠ "" := by
      intro he
      subst he
      exact absurd h1 (by decide)
    simp only [Scraper.getTagForQuestion]
    rw [if_neg hs,
      if_neg (by rintro ⟨hI, -⟩; exact absurd (h1.symm.trans hI) (by decide)),
      if_neg (by rintro ⟨hI, -⟩; exact absurd (h1.symm.trans hI) (by decide)),
      if_pos ⟨h1, h2, h3⟩]
  · intro s n h1 h2 h3
    have hs : s ≠ "" := by
      intro he
      subst he
      exact absurd h1 (by decide)
    simp only [Scraper.getTagForQuestion]
    rw [if_neg hs,
      if_neg (by rintro ⟨hI, -⟩; exact absurd (h1.symm.trans hI) (by decide)),
      if_neg (by rintro ⟨hI, -⟩; exact absurd (h1.symm.trans hI) (by decide)),
      if_neg (by rintro ⟨-, -, h45⟩; omega), if_pos ⟨h1, h2, h3⟩]
  · intro s n hs h1 h2 h3 h4
    simp only [Scraper.getTagForQuestion]
    rw [if_neg hs, if_neg h1, if_neg h2, if_neg h3, if_neg h4]

/-- C3, witness for the hypothesis-bearing conjuncts at concrete inputs. -/
theorem C3_tag_resolver_witness :
    (jsTrim " Section I " = "Section I" ∧ (1 : Int) ≤ 7 ∧ (7 : Int) ≤ 30
      ∧ Scraper.getTagForQuestion (some " Section I ") (some 7) = some "MATH")
    ∧ ("General Awareness" ≠ ""
      ∧ Scraper.getTagForQuestion (some "General Awareness") (some 99)
        = Scraper.keywordTag (jsTrim "General Awareness")) :=
  ⟨⟨by decide, by decide, by decide,
    C3_tag_resolver.2.2.2.1 " Section I " 7 (by decide) (by decide) (by decide)⟩,
   ⟨by decide,
    C3_tag_resolver.2.2.2.2.2.2.2.1 "General Awareness" 99 (by decide) (by decide)
      (by decide) (by decide) (by decide)⟩⟩
/-- C4, counterexample.  The claim asserts `Answer ∈ {0,1,2,3,4}` for
every extracted record, but the code takes 1 plus the index of the first
correct-marked option container with no bound on how many containers the
page has: with five containers and the fifth marked correct, the emitted
record has `Answer = 5`. -/
theorem C4_counterexample :
    Option.map QuestionRecord.Answer
        (Scraper.scrapeSingleQuestionPage idMinifier snapFiveOptions 1 1000 1) = some 5 := by
  decide

/-- C4, amended.  `Answer` equals 1 plus the 0-based position of the first
correct-marked option container and 0 when none carries the marker; it
lies in `{0,…,4}` whenever the page has at most four option containers. -/
theorem C4_answer_encoding_amended :
    ∀ (m : String → Option String) (snap : Snapshot) (f nid sl : Nat) (r : QuestionRecord),
      Scraper.scrapeSingleQuestionPage m snap f nid sl = some r →
      (r.Answer = (match snap.options.findIdx? (fun o => o.correct) with
        | some i => i + 1
        | none => 0))
      ∧ (snap.options.length ≤ 4 → r.Answer ≤ 4) := by
  intro m snap f nid sl r h
  have hc := Scraper.scrape_core h
  refine ⟨hc.2.2.2.2, ?_⟩
  intro h4
  rw [hc.2.2.2.2]
  cases hidx : snap.options.findIdx? (fun o => o.correct) with
  | none =>
    show (0 : Nat) ≤ 4
    decide
  | some i =>
    have := findIdx?_lt_length _ _ _ hidx
    show i + 1 ≤ 4
    omega

/-- C4, witness for the amended theorem: four options with the third
marked correct give `Answer = 3`. -/
theorem C4_answer_encoding_amended_witness :
    Scraper.scrapeSingleQuestionPage idMinifier snapFourOptions 3 1005 2 = some recFourOptions
    ∧ (recFourOptions.Answer = (match snapFourOptions.options.findIdx? (fun o => o.correct) with
        | some i => i + 1
        | none => 0))
    ∧ (snapFourOptions.options.length ≤ 4 → recFourOptions.Answer ≤ 4) :=
  ⟨by decide,
   (C4_answer_encoding_amended idMinifier snapFourOptions 3 1005 2 recFourOptions (by decide)).1,
   (C4_answer_encoding_amended idMinifier snapFourOptions 3 1005 2 recFourOptions (by decide)).2⟩

/-- C5.  The collected records carry SL values exactly `1, 2, …, k` in
emission order (the serial counter starts at 1 and advances only on a
successful parse, so failed pages consume no SL), and when the first
harvested page parses successfully its record carries
`noteId = 1000 + skip` while its SL is 1. -/
theorem C5_serial_numbering :
    ∀ (m : String → Option String) (lim : Option Nat) (tag : Option String)
      (skip : Nat) (pages : List Scraper.PageStep),
      ((Scraper.scrapeLoop m lim tag pages (Scraper.initLoopState skip)).allQuestionsData.map
          QuestionRecord.SL
        = natSeq 1 (Scraper.scrapeLoop m lim tag pages
            (Scraper.initLoopState skip)).allQuestionsData.length)
      ∧ (∀ (p : Scraper.PageStep) (rest : List Scraper.PageStep) (r : QuestionRecord),
          pages = p :: rest →
          Scraper.scrapeSingleQuestionPage m p.snap (skip + 1) (1000 + skip) 1 = some r →
          (Scraper.scrapeLoop m lim tag pages
              (Scraper.initLoopState skip)).allQuestionsData.head?.map QuestionRecord.noteId
            = some (1000 + skip)
          ∧ (Scraper.scrapeLoop m lim tag pages
              (Scraper.initLoopState skip)).allQuestionsData.head?.map QuestionRecord.SL
            = some 1) := by
  intro m lim tag skip pages
  constructor
  · exact Scraper.scrapeLoop_SL m lim tag pages (Scraper.initLoopState skip) rfl rfl
  · intro p rest r hp hq
    subst hp
    have hhead := Scraper.scrapeLoop_first_record m lim tag p rest
      (Scraper.initLoopState skip) r rfl hq
    rw [hhead]
    constructor
    · simp [Scraper.appendCommonTag_noteId, (Scraper.scrape_core hq).2.1]
    · simp [Scraper.appendCommonTag_SL, (Scraper.scrape_core hq).1]

/-- C5, witness: with skip = 2 and one good page, the sole record has
`noteId = 1002` and `SL = 1`. -/
theorem C5_serial_numbering_witness :
    Scraper.scrapeSingleQuestionPage idMinifier pageGood.snap (2 + 1) (1000 + 2) 1 = some recSkipTwo
    ∧ (Scraper.scrapeLoop idMinifier none none [pageGood]
        (Scraper.initLoopState 2)).allQuestionsData.head?.map QuestionRecord.noteId
      = some (1000 + 2)
    ∧ (Scraper.scrapeLoop idMinifier none none [pageGood]
        (Scraper.initLoopState 2)).allQuestionsData.head?.map QuestionRecord.SL
      = some 1 :=
  ⟨by decide,
   ((C5_serial_numbering idMinifier none none 2 [pageGood]).2 pageGood [] recSkipTwo rfl
     (by decide)).1,
   ((C5_serial_numbering idMinifier none none 2 [pageGood]).2 pageGood [] recSkipTwo rfl
     (by decide)).2⟩

/-- C6, counterexample.  The claim ranges over every finite scrape limit
N, but with `--count 0` (`scrapeLimit = 0`) the limit check runs only
*after* a page has been processed, so one record is collected — the result
collection exceeds N = 0. -/
theorem C6_counterexample :
    (Scraper.scrapeLoop idMinifier (some 0) none [pageGood]
      (Scraper.initLoopState 0)).allQuestionsData.length = 1 := by
  decide

/-- C6, amended.  For every finite scrape limit N ≥ 1 the result
collection never exceeds N records, and with limit 1 and a first page that
parses successfully exactly one record is produced and exactly one page is
examined (regardless of how many further pages are available). -/
theorem C6_scrape_limit_amended :
    ∀ (m : String → Option String) (tag : Option String) (skip N : Nat)
      (pages : List Scraper.PageStep), 1 ≤ N →
      ((Scraper.scrapeLoop m (some N) tag pages
          (Scraper.initLoopState skip)).allQuestionsData.length ≤ N)
      ∧ (∀ (p : Scraper.PageStep) (rest : List Scraper.PageStep) (r : QuestionRecord),
          pages = p :: rest → N = 1 →
          Scraper.scrapeSingleQuestionPage m p.snap (skip + 1) (1000 + skip) 1 = some r →
          (Scraper.scrapeLoop m (some N) tag pages
              (Scraper.initLoopState skip)).allQuestionsData.length = 1
          ∧ (Scraper.scrapeLoop m (some N) tag pages
              (Scraper.initLoopState skip)).pagesExamined = 1) := by
  intro m tag skip N pages hN
  constructor
  · exact Scraper.scrapeLoop_le_limit m tag N pages (Scraper.initLoopState skip) (by simp [Scraper.initLoopState]; omega)
  · intro p rest r hp h1 hq
    subst hp
    subst h1
    have hstep : Scraper.processPage m tag p (Scraper.initLoopState skip) =
        { questionCounter := skip + 1, noteIdCounter := 1000 + skip,
          serialNumberCounter := 2,
          allQuestionsData := [Scraper.appendCommonTag tag r],
          pagesExamined := 1, nextClicks := 0 } := by
      unfold Scraper.processPage
      rw [show Scraper.scrapeSingleQuestionPage m p.snap
          (Scraper.initLoopState skip).questionCounter
          (Scraper.initLoopState skip).noteIdCounter
          (Scraper.initLoopState skip).serialNumberCounter = some r from hq]
      rfl
    rw [Scraper.scrapeLoop, hstep]
    rw [if_pos (by simp [Scraper.limitReached])]
    exact ⟨rfl, rfl⟩

/-- C6, witness: limit 1 and five available pages yield exactly one record
and exactly one examined page. -/
theorem C6_scrape_limit_amended_witness :
    ((1 : Nat) ≤ 1
      ∧ Scraper.scrapeSingleQuestionPage idMinifier pageGood.snap (0 + 1) (1000 + 0) 1
        = some recLimitOne)
    ∧ (Scraper.scrapeLoop idMinifier (some 1) none
        [pageGood, pageGood, pageGood, pageGood, pageGood]
        (Scraper.initLoopState 0)).allQuestionsData.length = 1
    ∧ (Scraper.scrapeLoop idMinifier (some 1) none
        [pageGood, pageGood, pageGood, pageGood, pageGood]
        (Scraper.initLoopState 0)).pagesExamined = 1 :=
  ⟨⟨by decide, by decide⟩,
   ((C6_scrape_limit_amended idMinifier none 0 1
      [pageGood, pageGood, pageGood, pageGood, pageGood] (by decide)).2 pageGood
      [pageGood, pageGood, pageGood, pageGood] recLimitOne rfl rfl (by decide)).1,
   ((C6_scrape_limit_amended idMinifier none 0 1
      [pageGood, pageGood, pageGood, pageGood, pageGood] (by decide)).2 pageGood
      [pageGood, pageGood, pageGood, pageGood] recLimitOne rfl rfl (by decide)).2⟩

/-- C7.  The sanitizer returns `""` on null and on empty input, is a total
function of the model (so it cannot raise), and when the minifier step
fails it returns the trimmed result of the preceding string-level passes
(`preMinified`) instead of propagating the failure. -/
theorem C7_sanitizer_guard_and_fallback :
    (∀ m : String → Option String, Sanitizer.transformAndSanitizeHtml m none = "")
    ∧ (∀ m : String → Option String, Sanitizer.transformAndSanitizeHtml m (some "") = "")
    ∧ (∀ (m : String → Option String) (s : String), s ≠ "" →
        m (Sanitizer.preMinified s) = none →
        Sanitizer.transformAndSanitizeHtml m (some s) = jsTrim (Sanitizer.preMinified s)) := by
  refine ⟨fun m => rfl, fun m => rfl, ?_⟩
  intro m s hs hm
  simp only [Sanitizer.transformAndSanitizeHtml]
  rw [if_neg hs]
  unfold Sanitizer.minifyHtml
  by_cases hp : Sanitizer.preMinified s = ""
  · rw [if_pos hp]
  · rw [if_neg hp, hm]
    rfl

/-- C7, witness: a minifier that always throws falls back to the
pre-minification result. -/
theorem C7_sanitizer_guard_and_fallback_witness :
    ("<b>a</b>" ≠ "" ∧ failMinifier (Sanitizer.preMinified "<b>a</b>") = none)
    ∧ Sanitizer.transformAndSanitizeHtml failMinifier (some "<b>a</b>")
      = jsTrim (Sanitizer.preMinified "<b>a</b>") :=
  ⟨⟨by decide, rfl⟩,
   C7_sanitizer_guard_and_fallback.2.2 failMinifier "<b>a</b>" (by decide) rfl⟩

/-- C8.  Sanitizing `<font><font>x</font></font>` yields `<font>x</font>`:
the `font`-unwrap pass iterates over a stale element snapshot, so the
re-parsed inner wrapper introduced by the outer replacement survives the
pass, contradicting the code's own stated intent of unwrapping the legacy
wrapper tags.  A second sanitizer application unwraps it further to `x`,
which differs even under whitespace-insensitive comparison — sanitization
is not idempotent. -/
theorem C8_sanitizer_not_idempotent :
    Sanitizer.transformAndSanitizeHtml idMinifier (some "<font><font>x</font></font>")
      = "<font>x</font>"
    ∧ Sanitizer.transformAndSanitizeHtml idMinifier
        (some (Sanitizer.transformAndSanitizeHtml idMinifier (some "<font><font>x</font></font>")))
      = "x"
    ∧ stripWhitespace "<font>x</font>" ≠ stripWhitespace "x" := by
  refine ⟨by decide, by decide, by decide⟩
